import Mathlib

/-!
Verification development for the NRW Landtag protocol parser
(`parse_data.py`).  The Python source is shallowly embedded: text is
modelled as `List Char` (Python `str` is a sequence of code points),
paragraph nodes as records of class tags and text, and the stateful
walk of `parse_protocol` as an explicit state machine returning
`Except`.  Diagnostic `print` calls are modelled as a warning list
threaded through the state.
-/

/-- Text is modelled as a list of characters (Python strings are
sequences of unicode code points). -/
abbrev Str := List Char

/-- Lower-casing of a character, covering ASCII plus the Latin-1
uppercase range (which includes the umlauts appearing in the source's
patterns and class names).  Models Python's `str.lower` on the
alphabet the parser actually touches. -/
def lowerChar (c : Char) : Char :=
  if 'A' ≤ c ∧ c ≤ 'Z' then Char.ofNat (c.toNat + 32)
  else if 0xC0 ≤ c.toNat ∧ c.toNat ≤ 0xDE ∧ c.toNat ≠ 0xD7 then Char.ofNat (c.toNat + 32)
  else c

/-- Python `str.lower` on a whole string. -/
def lowerStr (s : Str) : Str := s.map lowerChar

/-- Whitespace as matched by the `[\s]+` pattern of `RE_CLEAN_TEXT`
(ASCII whitespace; the protocols' texts contain no exotic spaces). -/
def isSpace (c : Char) : Bool :=
  c = ' ' || c = '\t' || c = '\n' || c = '\r' || c = '\x0b' || c = '\x0c'

/-- Collapse every run of adjacent spaces to a single space (the
strings fed to it have already had all whitespace mapped to `' '`). -/
def squeezeSpaces : Str → Str
  | [] => []
  | [c] => [c]
  | a :: b :: r =>
    if a = ' ' && b = ' ' then squeezeSpaces (b :: r)
    else a :: squeezeSpaces (b :: r)

/-- `clean_text` from `parse_data.py`: drop soft hyphens (U+00AD),
collapse whitespace runs to one space, and strip leading/trailing
whitespace. -/
def clean_text (s : Str) : Str :=
  let t := (s.filter (fun c => c ≠ '\xad')).map (fun c => if isSpace c then ' ' else c)
  (((squeezeSpaces t).dropWhile (fun c => c = ' ')).reverse.dropWhile (fun c => c = ' ')).reverse

/-- The `TYPO_FIXES` table of `parse_data.py`, in declaration order
(Python dicts iterate in insertion order). -/
def TYPO_FIXES : List (Str × Str) := [
  ( "Oliver Wittke,, Minister für Bauen und Verkehr:".toList,
    "Oliver Wittke, Minister für Bauen und Verkehr:".toList),
  ( "Michael Breuer, Minister für Bundes? und Europaangelegenheiten:".toList,
    "Michael Breuer, Minister für Bundes- und Europaangelegenheiten:".toList),
  ( "Svenja Schulze, Ministerin für Innovation, Wissenschaft und Forschung ".toList,
    "Svenja Schulze, Ministerin für Innovation, Wissenschaft und Forschung:".toList),
  ( "Vizepräsidentin Angela Freimuth ".toList, "Vizepräsidentin Angela Freimuth: ".toList),
  ( "Susana Dos Santos Herrmann".toList, "Susana dos Santos Herrmann".toList),
  ( "Minister Uhlenberg".toList, "Minister Eckhard Uhlenberg".toList),
  ( "Carina Gödeke".toList, "Carina Gödecke".toList),
  ( "Carina: ".toList, "Vizepräsidentin Carina Gödecke: ".toList),
  ( "Vizepräsidentin Carina: ".toList, "Vizepräsidentin Carina Gödecke: ".toList),
  ( "Vizepräsidentin Carina Gödeke".toList, "Vizepräsidentin Carina Gödecke".toList),
  ( "Brigitte D’moch-Schweren".toList, "Brigitte Dmoch-Schweren".toList),
  ( "Eckart Uhlenberg".toList, "Eckhard Uhlenberg".toList),
  ( "Margret Vosseler".toList, "Margret Voßeler".toList),
  ( "Präsident André: ".toList, "Präsident André Kuper: ".toList),
  ( "Vizepräsident Dr. Papke: ".toList, "Vizepräsident Dr. Gerhard Papke: ".toList),
  ( "Verena Schäffe*)".toList, "Verena Schäffer*)".toList),
  ( "Horst Enge*)l (FDP):".toList, "Horst Engel*) (FDP):".toList),
  ( "Armin Laschet*) Minister für Generationen, Familie, Frauen und Integration:".toList,
    "Armin Laschet*), Minister für Generationen, Familie, Frauen und Integration:".toList),
  ( "Wibke Brem*)".toList, "Wibke Brems".toList),
  ( "Hubertus Fehring) (CDU):".toList, "Hubertus Fehring (CDU):".toList),
  ( "Heiko Hendriks) (CDU):".toList, "Heiko Hendriks (CDU):".toList),
  ( "Frank Herrmann PIRATEN):".toList, "Frank Herrmann (PIRATEN):".toList),
  ( "Sigrid Beer GRÜNE):".toList, "Sigrid Beer (GRÜNE):".toList),
  ( "Dr. Robert Orth FDP):".toList, "Dr. Robert Orth (FDP):".toList),
  ( "Rainer Deppe CDU):".toList, "Rainer Deppe (CDU):".toList),
  ( "Ralf Witzel FDP):".toList, "Ralf Witzel (FDP):".toList),
  ( "Eiskirch (SPD):".toList, "Thomas Eiskirch (SPD):".toList)]

/-- One iteration of the loop body of `typo_fixes`.  Note the Python
source binds `match = text.startswith` once, before the loop, so every
entry's prefix test is performed against the ORIGINAL text `orig`,
while the replacement slices the current text `cur`. -/
def typo_step (orig : Str) (cur : Str) (e : Str × Str) : Str :=
  if e.1.isPrefixOf orig then e.2 ++ cur.drop e.1.length else cur

/-- `typo_fixes` from `parse_data.py`. -/
def typo_fixes (text : Str) : Str :=
  TYPO_FIXES.foldl (typo_step text) text

/-- Modelled from the spec's words (§4.2): one correction step that
tests each entry's prefix against the CURRENT (possibly already
rewritten) text.  Used to compare the spec's description of
`apply_corrections` with the source's `typo_fixes`. -/
def corr_step (cur : Str) (e : Str × Str) : Str :=
  if e.1.isPrefixOf cur then e.2 ++ cur.drop e.1.length else cur

/-- Modelled from the spec's words (§4.2): `apply_corrections`, with
entries checked in declaration order against the running text. -/
def apply_corrections (text : Str) : Str :=
  TYPO_FIXES.foldl corr_step text

/-- The pair relation on table entries under which the two correction
semantics coincide: for an earlier entry `a` and a later entry `b`,
the two keys are prefix-incomparable, and `a`'s replacement is
prefix-incomparable with `b`'s key. -/
def entriesIndep (a b : Str × Str) : Prop :=
  ¬ a.1 <+: b.1 ∧ ¬ b.1 <+: a.1 ∧ ¬ b.1 <+: a.2 ∧ ¬ a.2 <+: b.1

instance : DecidableRel entriesIndep := by
  intro a b
  unfold entriesIndep
  infer_instance

/-!
## Backtracking regular-expression engine

The speaker patterns of `parse_data.py` use only literals, character
classes, greedy `?`/`*`/`+` on character classes, alternation and
capture groups.  The engine below reproduces Python `re.match`
semantics for this fragment: leftmost match with greedy backtracking,
alternatives tried left to right.
-/

/-- Capture environment: group index paired with the captured text,
most recent first. -/
abbrev Caps := List (Nat × Str)

/-- Regular expressions over the fragment used by the source. -/
inductive RE where
  | eps : RE
  | ch : (Char → Bool) → RE
  | seq : RE → RE → RE
  | alt : RE → RE → RE
  | opt : RE → RE
  | star : (Char → Bool) → RE
  | plus : (Char → Bool) → RE
  | group : Nat → RE → RE

/-- Try take counts `n, n-1, ..., 0` (greedy star backtracking). -/
def tryDown (f : Nat → Option α) : Nat → Option α
  | 0 => f 0
  | n + 1 => (f (n + 1)) <|> tryDown f n

/-- Try take counts `n, n-1, ..., 1` (greedy plus backtracking). -/
def tryDownOne (f : Nat → Option α) : Nat → Option α
  | 0 => none
  | n + 1 => (f (n + 1)) <|> tryDownOne f n

/-- CPS matcher: attempts to match `r` at the front of `s`, feeding
the remaining input and updated captures to the continuation `k`,
backtracking on failure. -/
def mrun (r : RE) (s : Str) (caps : Caps) (k : Str → Caps → Option (Caps × Nat)) :
    Option (Caps × Nat) :=
  match r with
  | .eps => k s caps
  | .ch p =>
    match s with
    | [] => none
    | c :: rest => if p c then k rest caps else none
  | .seq a b => mrun a s caps (fun s' c' => mrun b s' c' k)
  | .alt a b => (mrun a s caps k) <|> (mrun b s caps k)
  | .opt a => (mrun a s caps k) <|> (k s caps)
  | .star p => tryDown (fun n => k (s.drop n) caps) ((s.takeWhile p).length)
  | .plus p => tryDownOne (fun n => k (s.drop n) caps) ((s.takeWhile p).length)
  | .group i a =>
    mrun a s caps (fun s' c' => k s' ((i, s.take (s.length - s'.length)) :: c'))

/-- Python `re.match`: match anchored at the start; returns the
captures and the end position of the match. -/
def reMatch (r : RE) (s : Str) : Option (Caps × Nat) :=
  mrun r s [] (fun rest caps => some (caps, s.length - rest.length))

/-- Group text by index (every group referenced by the source is bound
whenever the surrounding pattern matched; `[]` is a never-reached
default). -/
def capStr (c : Caps) (i : Nat) : Str := (c.lookup i).getD []

/-- A single literal character. -/
def reChar (c : Char) : RE := .ch (fun x => x = c)

/-- A single literal character under `re.I`. -/
def reCharCI (c : Char) : RE := .ch (fun x => lowerChar x = lowerChar c)

/-- Sequence a list of regular expressions. -/
def reSeq (l : List RE) : RE := l.foldr .seq .eps

/-- A literal string. -/
def lit (s : String) : RE := reSeq (s.toList.map reChar)

/-- A literal string under `re.I`. -/
def litCI (s : String) : RE := reSeq (s.toList.map reCharCI)

/-- Python `\w` (word character), restricted to the Latin ranges the
protocols use: ASCII alphanumerics, underscore, and Latin-1
Supplement / Latin Extended letters. -/
def wordChar (c : Char) : Bool :=
  c.isAlphanum || c = '_' ||
    (0xC0 ≤ c.toNat && c.toNat ≤ 0x24F && c.toNat ≠ 0xD7 && c.toNat ≠ 0xF7)

/-- The `NAME_DEF` character class `[\w\-‑.’' ]` of the source. -/
def nameChar (c : Char) : Bool :=
  wordChar c || c = '-' || c = '‑' || c = '.' || c = '’' || c = '\'' || c = ' '

/-- The ministry/role-title class `[\w\-‑.,() ]` of the source. -/
def titleChar (c : Char) : Bool :=
  wordChar c || c = '-' || c = '‑' || c = '.' || c = ',' || c = '(' || c = ')' || c = ' '

/-- `.` in the role patterns (any character but a newline). -/
def dotChar (c : Char) : Bool := c ≠ '\n'

/-- The ignorable parenthetical `(?:\(\w+ [\w ]+\))?` of
`SPEAKER_NAME_RE`. -/
def parenExtra : RE :=
  reSeq [reChar '(', .plus wordChar, reChar ' ',
         .plus (fun c => wordChar c || c = ' '), reChar ')']

/-- `SPEAKER_NAME_RE`: `(NAME)(?:\*\))? ?(?:\(\w+ [\w ]+\))? ?:`. -/
def SPEAKER_NAME_RE : RE :=
  reSeq [.group 1 (.plus nameChar), .opt (lit "*)"), .opt (reChar ' '),
         .opt parenExtra, .opt (reChar ' '), reChar ':']

/-- `SPEAKER_PARTY_NAME_RE`:
`(NAME)(?:\*\))? ?([\(\[]\w+[\)\]]|[\(\[]\w+) ?:?`. -/
def SPEAKER_PARTY_NAME_RE : RE :=
  reSeq [.group 1 (.plus nameChar), .opt (lit "*)"), .opt (reChar ' '),
         .group 2 (.alt
           (reSeq [.ch (fun c => c = '(' || c = '['), .plus wordChar,
                   .ch (fun c => c = ')' || c = ']')])
           (reSeq [.ch (fun c => c = '(' || c = '['), .plus wordChar])),
         .opt (reChar ' '), .opt (reChar ':')]

/-- `MINISTER_NAME_RE`:
`(NAME)(?:\*\))? ?,(?:\*\))? ?(\w*minister[\w\-‑.,() ]*):` (re.I). -/
def MINISTER_NAME_RE : RE :=
  reSeq [.group 1 (.plus nameChar), .opt (lit "*)"), .opt (reChar ' '),
         reChar ',', .opt (lit "*)"), .opt (reChar ' '),
         .group 2 (reSeq [.star wordChar, litCI "minister", .star titleChar]),
         reChar ':']

/-- `OTHER_ROLE_NAME_RE`:
`(NAME)(?:\*\))? ?,(?:\*\))? ?(\w*präsident[\w\-‑.,() ]*):` (re.I). -/
def OTHER_ROLE_NAME_RE : RE :=
  reSeq [.group 1 (.plus nameChar), .opt (lit "*)"), .opt (reChar ' '),
         reChar ',', .opt (lit "*)"), .opt (reChar ' '),
         .group 2 (reSeq [.star wordChar, litCI "präsident", .star titleChar]),
         reChar ':']

/-- `geschäftsführender? ` (shared prefix piece of the role
patterns). -/
def gfPiece : RE := reSeq [litCI "geschäftsführende", .opt (reCharCI 'r'), reChar ' ']

/-- `geschäftsführender? (?:erster? )` of `VICE_PRESIDENT_RE` /
`SPEAKER_IS_CHAIR_RE`. -/
def gfErsterPiece : RE :=
  reSeq [litCI "geschäftsführende", .opt (reCharCI 'r'), reChar ' ',
         litCI "erste", .opt (reCharCI 'r'), reChar ' ']

/-- `PRESIDENT_RE`:
`((?:geschäftsführender? |alters|minister)?präsident(?:in)?) (.+)` (re.I). -/
def PRESIDENT_RE : RE :=
  reSeq [.group 1 (reSeq [.opt (.alt gfPiece (.alt (litCI "alters") (litCI "minister"))),
                          litCI "präsident", .opt (litCI "in")]),
         reChar ' ', .group 2 (.plus dotChar)]

/-- `VICE_PRESIDENT_RE`:
`((?:geschäftsführender? (?:erster? )|minister)?vizepräsident(?:in)?) (.+)` (re.I). -/
def VICE_PRESIDENT_RE : RE :=
  reSeq [.group 1 (reSeq [.opt (.alt gfErsterPiece (litCI "minister")),
                          litCI "vizepräsident", .opt (litCI "in")]),
         reChar ' ', .group 2 (.plus dotChar)]

/-- `SPEAKER_IS_CHAIR_RE`:
`((?:geschäftsführender? (?:erster? ))?(?:vize)?präsident(?:in)?) (.+)` (re.I). -/
def SPEAKER_IS_CHAIR_RE : RE :=
  reSeq [.group 1 (reSeq [.opt gfErsterPiece, .opt (litCI "vize"),
                          litCI "präsident", .opt (litCI "in")]),
         reChar ' ', .group 2 (.plus dotChar)]

/-- `MINISTER_RE`:
`((?:geschäftsführender? )?minister(?:in)?) (.+)` (re.I). -/
def MINISTER_RE : RE :=
  reSeq [.group 1 (reSeq [.opt gfPiece, litCI "minister", .opt (litCI "in")]),
         reChar ' ', .group 2 (.plus dotChar)]

/-!
## Speaker-intro parsing (`parse_speaker_intro`)
-/

/-- Parser errors (`ParserError` raised with the various messages). -/
inductive PError where
  | notSpeakerIntro
  | noSpeakerName
  | unclassifiable
  | endNotReached
deriving DecidableEq, Repr

/-- Diagnostic prints of the source, modelled as data. -/
inductive PWarning where
  | falseSpeakerIntro
  | shortSpeakerName
deriving DecidableEq, Repr

/-- The literal alternatives of `NON_SPEAKER_INTRO_RE`. -/
def NON_SPEAKER_INTRO_LITERALS : List Str :=
  ["Ich ", "Die ", "Der ", "Das ", "Dieses ", "Mit ", "Auch ", "Es ", "Wir ",
   "Ein ", "Eine ", "Hier ", "Meine ", "Bitte ", "Aber ", "Frau ", "Herr ",
   "Nach ", "Gemäß ", "Für ", "Zur ", "In ", "Ihnen ", "Art. ", "Gibt ",
   "Für ", "Liebe ", "Lieber ", "Da ", "So ", "Als ", "Jetzt ", "Wird ",
   "Hierzu ", "Dieser ", "Diese ", "Dann ", "Denn ", "Gesetz ",
   "Beantwortung ", "Zu dem ", "Kurz einmal ", "Werbesendung ",
   "Grünen fallen ", "Interview ", "Sie ", "Um mit ", "Westfalen ",
   "Frage: ", "Vielen Dank ", "Wichtiges ", "Erstens: ", "Muster ab"].map String.toList

/-- The character-class alternative `[a-z\-–-„()…?]` of
`NON_SPEAKER_INTRO_RE` (the middle entry is the range U+2013–U+201E). -/
def negClassChar (c : Char) : Bool :=
  ('a' ≤ c && c ≤ 'z') || c = '-' || ('–' ≤ c && c ≤ '„') ||
    c = '(' || c = ')' || c = '…' || c = '?'

/-- `NON_SPEAKER_INTRO_RE.match(text) is not None`: the first
character falls in the class, or the text starts with one of the
catalogued literals. -/
def NON_SPEAKER_INTRO_match (s : Str) : Bool :=
  match s with
  | [] => false
  | c :: _ => negClassChar c || NON_SPEAKER_INTRO_LITERALS.any (fun l => l.isPrefixOf s)

/-- Python `speaker_party.strip('([]) ')`. -/
def stripPartyEdges (s : Str) : Str :=
  let p := fun c => c = '(' || c = '[' || c = ']' || c = ')' || c = ' '
  ((s.dropWhile p).reverse.dropWhile p).reverse

/-- The mutable locals of the rule cascade in `parse_speaker_intro`
(lines 354–385 of the source). -/
structure RuleState where
  speaker_name : Option Str
  speaker_party : Option Str
  speaker_ministry : Option Str
  speaker_role_descr : Option Str
  speech : Option Str
deriving DecidableEq, Repr

/-- The four pattern rules of `parse_speaker_intro`, each tried
unconditionally in source order, each overwriting the shared locals on
a match. -/
def matchSpeakerRules (tag_text : Str) : RuleState :=
  let rs : RuleState := ⟨none, none, none, none, none⟩
  let rs := match reMatch SPEAKER_NAME_RE tag_text with
    | some (c, e) => { rs with speaker_name := some (capStr c 1),
                               speech := some (tag_text.drop e) }
    | none => rs
  let rs := match reMatch SPEAKER_PARTY_NAME_RE tag_text with
    | some (c, e) => { rs with speaker_name := some (capStr c 1),
                               speaker_party := some (stripPartyEdges (capStr c 2)),
                               speech := some (tag_text.drop e) }
    | none => rs
  let rs := match reMatch MINISTER_NAME_RE tag_text with
    | some (c, e) => { rs with speaker_name := some (capStr c 1),
                               speaker_ministry := some (capStr c 2),
                               speech := some (tag_text.drop e) }
    | none => rs
  let rs := match reMatch OTHER_ROLE_NAME_RE tag_text with
    | some (c, e) => { rs with speaker_name := some (capStr c 1),
                               speaker_role_descr := some (capStr c 2),
                               speech := some (tag_text.drop e) }
    | none => rs
  rs

/-- Speaker roles (`'president'`, `'vice-president'`, `'minister'`,
`'other'` in the source). -/
inductive Role where
  | president
  | vicePresident
  | minister
  | other
deriving DecidableEq, Repr

/-- The dictionary returned by `parse_speaker_intro`. -/
structure SpeakerInfo where
  speaker_name : Str
  speaker_party : Option Str
  speaker_ministry : Option Str
  speaker_role : Option Role
  speaker_role_descr : Option Str
  speaker_is_chair : Bool
  speech : Option Str
deriving DecidableEq, Repr

/-- Number of words of `str.split()` (the inputs have already been
cleaned, so words are separated by single spaces). -/
def wordCount (s : Str) : Nat :=
  (s.zip (' ' :: s)).countP (fun p => (p.1 != ' ') && (p.2 == ' '))

/-- `parse_speaker_intro` from `parse_data.py` (with `verbose = 0`):
the negative guard, the four-rule cascade, the role cascade, the
chair flag and the short-name diagnostic. -/
def parse_speaker_intro (tag_text : Str) :
    Except PError (SpeakerInfo × List PWarning) :=
  if NON_SPEAKER_INTRO_match tag_text then .error .notSpeakerIntro
  else
    let rs := matchSpeakerRules tag_text
    match rs.speaker_name with
    | none => .error .noSpeakerName
    | some nm =>
      let full := nm
      let rd0 : Option Role × Option Str × Str := (none, rs.speaker_role_descr, nm)
      let rd1 := match reMatch PRESIDENT_RE full with
        | some (c, _) => (some Role.president, some (capStr c 1), capStr c 2)
        | none => rd0
      let rd2 := match reMatch VICE_PRESIDENT_RE full with
        | some (c, _) => (some Role.vicePresident, some (capStr c 1), capStr c 2)
        | none => rd1
      let rd3 := match reMatch MINISTER_RE full with
        | some (c, _) => (some Role.minister, some (capStr c 1), capStr c 2)
        | none => rd2
      let role := if rs.speaker_ministry.isSome then some Role.minister else rd3.1
      let role := if rd3.2.1.isSome && role.isNone then some Role.other else role
      let chair :=
        (match role with
         | some Role.president => true
         | some Role.vicePresident => true
         | _ => false) && (reMatch SPEAKER_IS_CHAIR_RE full).isSome
      let name := clean_text rd3.2.2
      let warns : List PWarning :=
        if wordCount name == 1 then [.shortSpeakerName] else []
      .ok ({ speaker_name := name,
             speaker_party := rs.speaker_party.map clean_text,
             speaker_ministry := rs.speaker_ministry.map clean_text,
             speaker_role := role,
             speaker_role_descr := rd3.2.1,
             speaker_is_chair := chair,
             speech := rs.speech.map clean_text }, warns)

/-!
## The protocol walker (`parse_protocol`)
-/

/-- `SPEAKER_INTRO_CLASSES` (lower-cased, as in `lowercase_set`). -/
def SPEAKER_INTRO_CLASSES : List Str :=
  (["rRednerkopf", "rRednerkopf0", "fZwischenfrage"].map String.toList).map lowerStr

/-- `SPEECH_CLASSES` (lower-cased). -/
def SPEECH_CLASSES : List Str :=
  ((["aStandardabsatz", "aAbsatz",
     "t-N-ONummerierungohneSeitenzahl",
     "t-D-SAntragetcmitSeitenzahl", "t-D-OAntragetcohneSeitenzahl",
     "t-I-VInVerbindungmit", "t-O-NOhneNummerierungohneSeitenzahl",
     "t1AbsatznachTOP", "t-M-berschriftMndlicheAnfrage",
     "t-M-TTextMndlicheAnfrage", "t-N-SNummerierungmitSeitenzahl",
     "pPunktgliederung", "t-M-ETextMndlicheEinrckung",
     "1Tagesordnungsgliederung",
     "2Tagesordnungsgliederung",
     "3Tagesordnungsgliederung", "tEinrckTagesordnung",
     "mMndlicheAnfrage",
     "pZitatPunktgliederung", "dAntragDrucksache",
     "vVerfasserMndlichenAnfrage", "fberschriftMndlicheAnfrage",
     "kTextMndlicheAnfrage", "fberschriftMndlicheAnfragerage",
     "nNummerieringAufzhlung", "eTEingerueckterTOP",
     "vinVerbindung",
     "MsoNormal", "MsoListBullet",
     "sSchluss"]).map String.toList).map lowerStr

/-- `ANNOTATION_CLASSES` (lower-cased). -/
def ANNOTATION_CLASSES : List Str :=
  ((["kKlammer", "kKlammern", "wVorsitzwechsel"]).map String.toList).map lowerStr

/-- `CITATION_CLASSES` (lower-cased). -/
def CITATION_CLASSES : List Str :=
  ((["zZitat", "eZitat-Einrckung"]).map String.toList).map lowerStr

/-- Non-empty set intersection (`S & p_classes` in the source). -/
def setInter (s : List Str) (p : List Str) : Bool :=
  p.any (fun c => decide (c ∈ s))

/-- `REMOVE_CITATION_MARKS` module constant. -/
def REMOVE_CITATION_MARKS : Bool := false

/-- `PAGE_RE.match(text)`: text begins `Seite ` followed by a digit. -/
def pageMatch (s : Str) : Bool :=
  "Seite ".toList.isPrefixOf s &&
    (match s.drop 6 with
     | c :: _ => c.isDigit
     | [] => false)

/-- Text of an annotation paragraph (`parse_annotation_paragraph`):
`lstrip('(')`, `rstrip(')')`, then `clean_text`.  Python's
`lstrip`/`rstrip` remove ALL leading/trailing characters of the
given set, not just one. -/
def parse_annotation_paragraph (tag_text : Str) : Str :=
  let t1 := tag_text.dropWhile (fun c => c = '(')
  let t2 := (t1.reverse.dropWhile (fun c => c = ')')).reverse
  clean_text t2

/-- Text of a citation paragraph (`parse_citation_paragraph`); the
mark-stripping is disabled by `REMOVE_CITATION_MARKS = False`. -/
def parse_citation_paragraph (tag_text : Str) : Str :=
  let t :=
    if REMOVE_CITATION_MARKS then
      let p1 := fun c => c = '„' || c = '"' || c = '\''
      let p2 := fun c => c = '“' || c = '"' || c = '\'' || c = ','
      ((tag_text.dropWhile p1).reverse.dropWhile p2).reverse
    else tag_text
  clean_text t

/-- A paragraph node of the HTML soup: its class attribute, extracted
text, and whether it is the end-boundary node found by `find_end`. -/
structure Node where
  classes : List Str
  text : Str
  isEnd : Bool
deriving DecidableEq, Repr

/-- Which key the paragraph dictionary carries (`speech` /
`annotation` / `citation`); a successfully parsed speaker intro is
emitted with the `speech` key. -/
inductive RecordKind where
  | speech
  | annot
  | citation
deriving DecidableEq, Repr

/-- The `section_meta_data` speaker attributes. -/
structure SpeakerMeta where
  speaker_name : Str
  speaker_party : Option Str
  speaker_ministry : Option Str
  speaker_role : Option Role
  speaker_role_descr : Option Str
  speaker_is_chair : Bool
deriving DecidableEq, Repr

/-- The speaker attributes captured from a parsed intro. -/
def metaOf (info : SpeakerInfo) : SpeakerMeta :=
  { speaker_name := info.speaker_name,
    speaker_party := info.speaker_party,
    speaker_ministry := info.speaker_ministry,
    speaker_role := info.speaker_role,
    speaker_role_descr := info.speaker_role_descr,
    speaker_is_chair := info.speaker_is_chair }

/-- One emitted paragraph record. -/
structure Record where
  kind : RecordKind
  text : Option Str
  section_meta : SpeakerMeta
  html_classes : List Str
  flow_index : Nat
  speaker_flow_index : Nat
deriving DecidableEq, Repr

/-- Lexicographic comparison of strings by code points (Python `<`
on `str`, as used by `sorted`). -/
def strLe : Str → Str → Bool
  | [], _ => true
  | _ :: _, [] => false
  | c :: a, d :: b => if c = d then strLe a b else decide (c < d)

/-- Insertion into a sorted list. -/
def insertStr (x : Str) : List Str → List Str
  | [] => [x]
  | y :: r => if strLe x y then x :: y :: r else y :: insertStr x r

/-- Insertion sort. -/
def sortStrs : List Str → List Str
  | [] => []
  | x :: r => insertStr x (sortStrs r)

/-- Remove duplicates, keeping first occurrences. -/
def dedupStrs (l : List Str) : List Str :=
  l.foldl (fun acc x => if x ∈ acc then acc else acc ++ [x]) []

/-- Python `sorted(p_classes)` on the class set. -/
def sortClasses (l : List Str) : List Str := sortStrs (dedupStrs l)

/-- The mutable locals of the `parse_protocol` scan loop. -/
structure WState where
  recs : List Record
  section_meta_data : Option SpeakerMeta
  p_counter : Nat
  speaker_section_counter : Nat
  warnings : List PWarning
deriving DecidableEq, Repr

/-- Append one record (lines 578–584: `html_classes`, `flow_index`,
`speaker_flow_index`, counter bumps). -/
def emit (st : WState) (kind : RecordKind) (text : Option Str)
    (meta : SpeakerMeta) (p_classes : List Str) : WState :=
  let r : Record :=
    { kind := kind, text := text, section_meta := meta,
      html_classes := sortClasses p_classes,
      flow_index := st.p_counter,
      speaker_flow_index := st.speaker_section_counter }
  { st with recs := st.recs ++ [r], p_counter := st.p_counter + 1,
            speaker_section_counter := st.speaker_section_counter + 1 }

/-- The non-intro classification cascade (lines 550–584): skip while
no speaker section is active, else classify into speech, annotation
or citation, or fail. -/
def finishOrdinary (st : WState) (p_classes : List Str) (text : Str) :
    Except PError WState :=
  match st.section_meta_data with
  | none => .ok st
  | some meta =>
    if setInter SPEECH_CLASSES p_classes then
      .ok (emit st .speech (some text) meta p_classes)
    else if setInter ANNOTATION_CLASSES p_classes then
      .ok (emit st .annot (some (parse_annotation_paragraph text)) meta p_classes)
    else if setInter CITATION_CLASSES p_classes then
      .ok (emit st .citation (some (parse_citation_paragraph text)) meta p_classes)
    else .error .unclassifiable

/-- The loop body of `parse_protocol` for one non-end node. -/
def processNode (st : WState) (nd : Node) : Except PError WState :=
  let p_classes := nd.classes.map lowerStr
  let text0 := clean_text nd.text
  if text0 = [] then .ok st
  else if pageMatch text0 then .ok st
  else
    let text := typo_fixes text0
    if setInter SPEAKER_INTRO_CLASSES p_classes then
      match parse_speaker_intro text with
      | .ok (info, ws) =>
        let meta := metaOf info
        let st1 := { st with section_meta_data := some meta,
                             speaker_section_counter := 1,
                             warnings := st.warnings ++ ws }
        .ok (emit st1 .speech info.speech meta p_classes)
      | .error _ =>
        let w : List PWarning :=
          if NON_SPEAKER_INTRO_match text then [] else [.falseSpeakerIntro]
        let p_classes' := p_classes ++
          [if text.head? = some '(' then "kklammer".toList else "astandardabsatz".toList]
        finishOrdinary { st with warnings := st.warnings ++ w } p_classes' text
    else
      finishOrdinary st p_classes text

/-- The scan loop: stop at the end-boundary node, otherwise process;
falling off the end of the node list is the `for … else` error path. -/
def walk : List Node → WState → Except PError WState
  | [], _ => .error .endNotReached
  | nd :: rest, st =>
    if nd.isEnd then .ok st
    else
      match processNode st nd with
      | .ok st' => walk rest st'
      | .error e => .error e

/-- Initial loop state (`paragraphs = []`, `current_speaker = None`,
`p_counter = 1`). -/
def initState : WState :=
  { recs := [], section_meta_data := none, p_counter := 1,
    speaker_section_counter := 0, warnings := [] }

/-- `parse_protocol`, applied to the paragraph nodes following the
start boundary: the resulting ordered record list, or the fatal
error. -/
def parse_protocol (nodes : List Node) : Except PError (List Record) :=
  (walk nodes initState).map WState.recs

/-- Modelled from the spec's words (§4.5): annotation text with ONE
leading `(` and ONE trailing `)` stripped if present (the claims'
description of annotation stripping, to be compared with the
source's `lstrip`/`rstrip`). -/
def stripOneParenSpec (s : Str) : Str :=
  let s1 := match s with
    | '(' :: r => r
    | _ => s
  if s1.getLast? = some ')' then s1.dropLast else s1

/-!
## Auxiliary definitions used by the theorems
-/

/-- Whether an `Except` value is a success. -/
def exOk : Except ε α → Bool
  | .ok _ => true
  | .error _ => false

/-- A node is a successfully recognized speaker introduction: it
carries a speaker-intro class tag and its corrected text parses. -/
def introSuccess (nd : Node) : Bool :=
  setInter SPEAKER_INTRO_CLASSES (nd.classes.map lowerStr) &&
    exOk (parse_speaker_intro (typo_fixes (clean_text nd.text)))

/-- The walker invariant behind the `sequence_index` claim: the
records so far carry `flow_index` values `1..N`, and the counter is
`N + 1`. -/
def flowInv (st : WState) : Prop :=
  st.recs.map Record.flow_index = List.range' 1 st.recs.length ∧
  st.p_counter = st.recs.length + 1

/-!
## Concrete demonstration documents
-/

/-- A paragraph node holding a plain speaker introduction. -/
def introNode : Node := ⟨["rRednerkopf".toList], "Max Mustermann: Hallo.".toList, false⟩

/-- The end-boundary node. -/
def endNode : Node := ⟨["sSchluss".toList], "Schluss: 13:00 Uhr.".toList, true⟩

/-- An annotation node with doubled parentheses. -/
def annotNode : Node := ⟨["kKlammer".toList], "((Beifall))".toList, false⟩

/-- An ordinary speech node. -/
def speechNode : Node := ⟨["aStandardabsatz".toList], "Guten Tag.".toList, false⟩

/-- A node tagged as speaker intro whose text trips the negative
guard. -/
def guardNode : Node := ⟨["rRednerkopf".toList], "Ich bitte um Ruhe.".toList, false⟩

/-- A plain speech node used before any speaker section. -/
def plainNode : Node := ⟨["aStandardabsatz".toList], "Vorwort".toList, false⟩

/-- A node whose class tag matches none of the four category sets. -/
def unkNode : Node := ⟨["zzUnbekannt".toList], "Blah".toList, false⟩

/-- The speaker data parsed from `introNode`. -/
def maxInfo : SpeakerInfo :=
  { speaker_name := "Max Mustermann".toList, speaker_party := none,
    speaker_ministry := none, speaker_role := none,
    speaker_role_descr := none, speaker_is_chair := false,
    speech := some ("Hallo.".toList) }

/-- The speaker section opened by `introNode`. -/
def maxMeta : SpeakerMeta :=
  { speaker_name := "Max Mustermann".toList, speaker_party := none,
    speaker_ministry := none, speaker_role := none,
    speaker_role_descr := none, speaker_is_chair := false }

/-- The record the walker emits for `introNode`. -/
def introRec : Record :=
  { kind := RecordKind.speech, text := some ("Hallo.".toList),
    section_meta := maxMeta, html_classes := ["rrednerkopf".toList],
    flow_index := 1, speaker_flow_index := 1 }

/-- The record the walker emits for `annotNode`. -/
def annotRec : Record :=
  { kind := RecordKind.annot, text := some ("Beifall".toList),
    section_meta := maxMeta, html_classes := ["kklammer".toList],
    flow_index := 2, speaker_flow_index := 2 }

/-- The record the walker emits for `speechNode`. -/
def speechRec : Record :=
  { kind := RecordKind.speech, text := some ("Guten Tag.".toList),
    section_meta := maxMeta, html_classes := ["astandardabsatz".toList],
    flow_index := 2, speaker_flow_index := 2 }

/-- The walker state after processing `introNode` from `initState`. -/
def stateAfterIntro : WState :=
  { recs := [introRec], section_meta_data := some maxMeta, p_counter := 2,
    speaker_section_counter := 2, warnings := [] }

/-- A text on which the first and the second speaker rule both match,
with different match ends. -/
def overrideText : Str := "Fritz Fischer (SPD Partei): Text".toList

/-!
## Theorems
-/

/-- If no entry key is a prefix of the original text, the source's
fold leaves any running text unchanged. -/
theorem foldl_typo_step_id (orig cur : Str) (t : List (Str × Str))
    (h : ∀ e ∈ t, ¬ e.1 <+: orig) :
    t.foldl (typo_step orig) cur = cur := by
  induction t generalizing cur with
  | nil => rfl
  | cons e t ih =>
    have he : ¬ e.1 <+: orig := h e (by simp)
    have : typo_step orig cur e = cur := by
      unfold typo_step
      rw [if_neg]
      intro hb
      exact he ( List.isPrefixOf_iff_prefix.mp hb)
    rw [List.foldl_cons, this]
    exact ih cur (fun e' he' => h e' (List.mem_cons_of_mem _ he'))

/-- If no entry key is a prefix of the running text, the spec's fold
leaves it unchanged. -/
theorem foldl_corr_step_id (cur : Str) (t : List (Str × Str))
    (h : ∀ e ∈ t, ¬ e.1 <+: cur) :
    t.foldl corr_step cur = cur := by
  induction t with
  | nil => rfl
  | cons e t ih =>
    have he : ¬ e.1 <+: cur := h e (by simp)
    have hstep : corr_step cur e = cur := by
      unfold corr_step
      rw [if_neg]
      intro hb
      exact he ( List.isPrefixOf_iff_prefix.mp hb)
    rw [List.foldl_cons, hstep]
    exact ih (fun e' he' => h e' (List.mem_cons_of_mem _ he'))

/-- A prefix of an appended list is comparable with the left part. -/
theorem prefix_of_append_cases {k a b : Str} (h : k <+: a ++ b) :
    k <+: a ∨ a <+: k :=
  List.prefix_or_prefix_of_prefix h (List.prefix_append a b)

/-- Under `entriesIndep` the two folds agree from the original text. -/
theorem foldl_steps_eq (t : List (Str × Str)) (h : t.Pairwise entriesIndep)
    (orig : Str) :
    t.foldl (typo_step orig) orig = t.foldl corr_step orig := by
  induction t with
  | nil => rfl
  | cons e t ih =>
    rcases List.pairwise_cons.mp h with ⟨hrel, htail⟩
    rw [List.foldl_cons, List.foldl_cons]
    by_cases hk : e.1 <+: orig
    · have hb : e.1.isPrefixOf orig = true := List.isPrefixOf_iff_prefix.mpr hk
      have hstep1 : typo_step orig orig e = e.2 ++ orig.drop e.1.length := by
        unfold typo_step
        rw [if_pos hb]
      have hstep2 : corr_step orig e = e.2 ++ orig.drop e.1.length := by
        unfold corr_step
        rw [if_pos hb]
      rw [hstep1, hstep2]
      rw [foldl_typo_step_id orig _ t ?h1, foldl_corr_step_id _ t ?h2]
      case h1 =>
        intro e' he' hpre
        rcases List.prefix_or_prefix_of_prefix hpre hk with hc | hc
        · exact (hrel e' he').2.1 hc
        · exact (hrel e' he').1 hc
      case h2 =>
        intro e' he' hpre
        rcases prefix_of_append_cases hpre with hc | hc
        · exact (hrel e' he').2.2.1 hc
        · exact (hrel e' he').2.2.2 hc
    · have hb : ¬ e.1.isPrefixOf orig = true := by
        intro hx
        exact hk ( List.isPrefixOf_iff_prefix.mp hx)
      have hstep1 : typo_step orig orig e = orig := by
        unfold typo_step
        rw [if_neg hb]
      have hstep2 : corr_step orig e = orig := by
        unfold corr_step
        rw [if_neg hb]
      rw [hstep1, hstep2]
      exact ih htail

/-- The concrete `TYPO_FIXES` table satisfies `entriesIndep`
pairwise. -/
theorem typo_table_indep : TYPO_FIXES.Pairwise entriesIndep := by
  decide

/-- C2: applying the correction table behaves exactly as the spec's
description: entries checked in declaration order, with the rewritten
text feeding the next entry's prefix check.  (The source binds
`startswith` to the original text; for this table the two semantics
are extensionally equal.) -/
theorem typo_fixes_eq_apply_corrections (text : Str) :
    typo_fixes text = apply_corrections text :=
  foldl_steps_eq TYPO_FIXES typo_table_indep text

/-- C9: on text not starting with any catalogued prefix, `typo_fixes`
is the identity. -/
theorem typo_fixes_noop_on_unmatched (text : Str)
    (h : ∀ e ∈ TYPO_FIXES, ¬ e.1 <+: text) :
    typo_fixes text = text :=
  foldl_typo_step_id text text TYPO_FIXES h

/-- Witness for C9 at the concrete input `"Hallo Welt!"`. -/
theorem typo_fixes_id_witness :
    typo_fixes "Hallo Welt!".toList = "Hallo Welt!".toList :=
  typo_fixes_noop_on_unmatched "Hallo Welt!".toList (by decide)


/-- Walker-step shape behind `finishOrdinary`: either the node is
skipped or exactly one record is appended with the current counter. -/
theorem finishOrdinary_shape (st : WState) (p : List Str) (text : Str) (st' : WState)
    (h : finishOrdinary st p text = .ok st') :
    st' = st ∨
    ∃ r, st' = { st with recs := st.recs ++ [r], p_counter := st.p_counter + 1,
                         speaker_section_counter := st.speaker_section_counter + 1 } ∧
         r.flow_index = st.p_counter := by
  unfold finishOrdinary at h
  split at h
  · left
    exact (Except.ok.inj h).symm
  · split at h
    · right
      exact ⟨_, (Except.ok.inj h).symm, rfl⟩
    · split at h
      · right
        exact ⟨_, (Except.ok.inj h).symm, rfl⟩
      · split at h
        · right
          exact ⟨_, (Except.ok.inj h).symm, rfl⟩
        · exact absurd h (by simp)

/-- Walker-step shape: a successful step either leaves the record list
and counter unchanged, or appends exactly one record stamped with the
current counter and bumps it. -/
theorem processNode_shape (st : WState) (nd : Node) (st' : WState)
    (h : processNode st nd = .ok st') :
    (st'.recs = st.recs ∧ st'.p_counter = st.p_counter) ∨
    (∃ r, st'.recs = st.recs ++ [r] ∧ r.flow_index = st.p_counter ∧
          st'.p_counter = st.p_counter + 1) := by
  unfold processNode at h
  dsimp only at h
  split at h
  · left
    rw [← Except.ok.inj h]
    exact ⟨rfl, rfl⟩
  · split at h
    · left
      rw [← Except.ok.inj h]
      exact ⟨rfl, rfl⟩
    · split at h
      · split at h
        · right
          rw [← Except.ok.inj h]
          exact ⟨_, rfl, rfl, rfl⟩
        · rcases finishOrdinary_shape _ _ _ _ h with h1 | ⟨r, h1, h2⟩
          · left
            rw [h1]
            exact ⟨rfl, rfl⟩
          · right
            rw [h1]
            exact ⟨r, rfl, h2, rfl⟩
      · rcases finishOrdinary_shape _ _ _ _ h with h1 | ⟨r, h1, h2⟩
        · left
          rw [h1]
          exact ⟨rfl, rfl⟩
        · right
          rw [h1]
          exact ⟨r, rfl, h2, rfl⟩

/-- Before the first recognized speaker introduction, a node that is
not a successful intro is processed without any record, error, or
state change besides diagnostics. -/
theorem processNode_skip_no_section (st : WState) (nd : Node)
    (hsec : st.section_meta_data = none)
    (hns : introSuccess nd = false) :
    ∃ w, processNode st nd = .ok { st with warnings := st.warnings ++ w } := by
  obtain ⟨recs, sec, pc, sc, ws⟩ := st
  change sec = none at hsec
  subst hsec
  unfold processNode
  dsimp only
  split
  · exact ⟨[], by simp⟩
  · split
    · exact ⟨[], by simp⟩
    · split
      · rename_i hcl
        unfold introSuccess at hns
        rw [hcl] at hns
        simp only [Bool.true_and] at hns
        split
        · rename_i info ws2 hok
          rw [hok] at hns
          simp [exOk] at hns
        · unfold finishOrdinary
          exact ⟨_, rfl⟩
      · unfold finishOrdinary
        exact ⟨[], by simp⟩

/-- C10: while no speaker section is active, a node between the
boundaries that carries no speaker-intro class tag is skipped
entirely: no record, no state change, and in particular no
unclassifiable-paragraph error, whatever its class-tag set is. -/
theorem processNode_skip_before_speaker (st : WState) (nd : Node)
    (hsec : st.section_meta_data = none)
    (hcl : setInter SPEAKER_INTRO_CLASSES (nd.classes.map lowerStr) = false) :
    processNode st nd = .ok st := by
  obtain ⟨recs, sec, pc, sc, ws⟩ := st
  change sec = none at hsec
  subst hsec
  unfold processNode
  dsimp only
  split
  · rfl
  · split
    · rfl
    · split
      · rename_i hc
        rw [hcl] at hc
        exact absurd hc (by simp)
      · unfold finishOrdinary
        rfl

/-- Witness for C10: a node with an unknown class set before any
speaker section is skipped without an error. -/
theorem processNode_skip_before_speaker_witness :
    processNode initState unkNode = .ok initState :=
  processNode_skip_before_speaker initState unkNode rfl (by decide)

/-- Appending a member of the class set makes the intersection
non-empty. -/
theorem setInter_append_member (s p : List Str) (x : Str) (hx : x ∈ s) :
    setInter s (p ++ [x]) = true := by
  simp [setInter, List.any_append]
  exact Or.inr hx

theorem mem_insertStr_self (x : Str) (l : List Str) : x ∈ insertStr x l := by
  induction l with
  | nil => simp [insertStr]
  | cons y r ih =>
    unfold insertStr
    split
    · simp
    · simpa using Or.inr ih

theorem mem_insertStr_of_mem (a x : Str) (l : List Str) (ha : a ∈ l) :
    a ∈ insertStr x l := by
  induction l with
  | nil => cases ha
  | cons y r ih =>
    unfold insertStr
    split
    · simpa using Or.inr ha
    · rcases List.mem_cons.mp ha with h | h
      · simp [h]
      · simpa using Or.inr (ih h)

theorem mem_sortStrs_of_mem (a : Str) (l : List Str) (ha : a ∈ l) :
    a ∈ sortStrs l := by
  induction l with
  | nil => cases ha
  | cons x r ih =>
    unfold sortStrs
    rcases List.mem_cons.mp ha with h | h
    · rw [h]
      exact mem_insertStr_self x (sortStrs r)
    · exact mem_insertStr_of_mem a x (sortStrs r) (ih h)

theorem mem_dedup_foldl (l : List Str) (acc : List Str) (a : Str)
    (ha : a ∈ acc ∨ a ∈ l) :
    a ∈ l.foldl (fun acc x => if x ∈ acc then acc else acc ++ [x]) acc := by
  induction l generalizing acc with
  | nil => simpa using ha.resolve_right (by simp)
  | cons y r ih =>
    rw [List.foldl_cons]
    apply ih
    rcases ha with h | h
    · left
      split
      · exact h
      · exact List.mem_append_left _ h
    · rcases List.mem_cons.mp h with h | h
      · left
        split
        · rename_i hy
          exact h ▸ hy
        · rw [h]
          exact List.mem_append_right _ (by simp)
      · right
        exact h

/-- Membership survives `sorted(set(...))`. -/
theorem mem_sortClasses_of_mem (a : Str) (l : List Str) (ha : a ∈ l) :
    a ∈ sortClasses l :=
  mem_sortStrs_of_mem a (dedupStrs l) (mem_dedup_foldl l [] a (Or.inr ha))

/-- One walker step preserves the `flow_index` invariant. -/
theorem flowInv_step {st st' : WState} (nd : Node) (hinv : flowInv st)
    (h : processNode st nd = .ok st') : flowInv st' := by
  rcases processNode_shape st nd st' h with ⟨h1, h2⟩ | ⟨r, h1, h2, h3⟩
  · exact ⟨h1 ▸ hinv.1, by rw [h2, h1]; exact hinv.2⟩
  · constructor
    · rw [h1, List.map_append, hinv.1, List.length_append]
      simp only [List.map_cons, List.map_nil, List.length_cons, List.length_nil]
      rw [h2, hinv.2, List.range'_concat]
      congr 1
      rw [Nat.one_mul, Nat.add_comm]
    · rw [h3, h1, List.length_append]
      simp [hinv.2]

/-- Unfolding of `walk` at a non-end node. -/
theorem walk_cons_not_end (nd : Node) (rest : List Node) (st : WState)
    (h : nd.isEnd = false) :
    walk (nd :: rest) st =
      match processNode st nd with
      | .ok st' => walk rest st'
      | .error e => .error e := by
  conv_lhs => rw [walk]
  rw [h]
  simp

/-- The walk preserves the `flow_index` invariant. -/
theorem walk_flowInv (nodes : List Node) (st st' : WState) (hinv : flowInv st)
    (h : walk nodes st = .ok st') : flowInv st' := by
  induction nodes generalizing st with
  | nil => cases h
  | cons nd rest ih =>
    unfold walk at h
    split at h
    · rw [← Except.ok.inj h]
      exact hinv
    · split at h
      · rename_i st1 hp
        exact ih st1 (flowInv_step nd hinv hp) h
      · cases h

/-- C7: nodes preceding the first successfully recognized speaker
introduction are discarded: walking them from a state with no active
speaker section emits no record and changes nothing but the
diagnostics list. -/
theorem walk_discards_before_speaker (pre post : List Node) (st : WState)
    (hsec : st.section_meta_data = none)
    (hpre : ∀ n ∈ pre, n.isEnd = false ∧ introSuccess n = false) :
    ∃ w, walk (pre ++ post) st = walk post { st with warnings := st.warnings ++ w } := by
  induction pre generalizing st with
  | nil => exact ⟨[], by simp⟩
  | cons nd rest ih =>
    obtain ⟨hend, hns⟩ := hpre nd (by simp)
    obtain ⟨w₁, hw₁⟩ := processNode_skip_no_section st nd hsec hns
    obtain ⟨w₂, hw₂⟩ := ih { st with warnings := st.warnings ++ w₁ } hsec
      (fun n hn => hpre n (List.mem_cons_of_mem _ hn))
    refine ⟨w₁ ++ w₂, ?_⟩
    rw [List.cons_append, walk_cons_not_end nd _ st hend, hw₁]
    dsimp only
    rw [hw₂]
    congr 1
    rw [List.append_assoc]

/-- Witness for C7: a preamble speech node before the first speaker
introduction produces no record. -/
theorem walk_discards_before_speaker_witness :
    initState.section_meta_data = none ∧
    (∀ n ∈ [plainNode], n.isEnd = false ∧ introSuccess n = false) ∧
    ∃ w, walk ([plainNode] ++ [endNode]) initState =
          walk [endNode] { initState with warnings := initState.warnings ++ w } :=
  ⟨rfl, by decide, walk_discards_before_speaker [plainNode] [endNode] initState rfl (by decide)⟩

/-- If no node of the walk is the end-boundary node and every step
succeeds, the walk ends in the for-else error. -/
theorem walk_no_end_error (nodes : List Node) (st stf : WState)
    (hend : ∀ n ∈ nodes, n.isEnd = false)
    (h : List.foldlM processNode st nodes = .ok stf) :
    walk nodes st = .error .endNotReached := by
  induction nodes generalizing st with
  | nil => rfl
  | cons nd rest ih =>
    have hnd := hend nd (by simp)
    rw [List.foldlM_cons] at h
    cases hp : processNode st nd with
    | error e =>
      rw [hp] at h
      exact Except.noConfusion h
    | ok st1 =>
      rw [hp] at h
      rw [walk_cons_not_end nd rest st hnd, hp]
      dsimp only
      exact ih st1 (fun n hn => hend n (List.mem_cons_of_mem _ hn)) h

/-- C8: a document whose node walk exhausts all nodes (every step
succeeding) without ever meeting the end-boundary node fails with the
end-boundary-never-reached error, yielding no records. -/
theorem end_never_reached (nodes : List Node) (stf : WState)
    (hend : ∀ n ∈ nodes, n.isEnd = false)
    (hsteps : List.foldlM processNode initState nodes = .ok stf) :
    parse_protocol nodes = .error .endNotReached := by
  unfold parse_protocol
  rw [walk_no_end_error nodes initState stf hend hsteps]
  rfl

/-- Witness for C8: a document with a single non-end node. -/
theorem end_never_reached_witness :
    parse_protocol [plainNode] = .error .endNotReached :=
  end_never_reached [plainNode] initState (by decide) rfl

/-- C6: on every successful parse, the emitted records carry
`flow_index` values exactly `1, 2, ..., N` in order. -/
theorem flow_index_contiguous (nodes : List Node) (recs : List Record)
    (h : parse_protocol nodes = .ok recs) :
    recs.map Record.flow_index = List.range' 1 recs.length := by
  unfold parse_protocol at h
  cases hw : walk nodes initState with
  | error e =>
    rw [hw] at h
    exact Except.noConfusion h
  | ok st' =>
    rw [hw] at h
    have hr : st'.recs = recs := Except.ok.inj h
    have hinv := walk_flowInv nodes initState st' ⟨rfl, rfl⟩ hw
    rw [← hr]
    exact hinv.1

/-- Witness for C6: a two-record document yields indices `[1, 2]`. -/
theorem flow_index_contiguous_witness :
    parse_protocol [introNode, speechNode, endNode] = .ok [introRec, speechRec] ∧
    [introRec, speechRec].map Record.flow_index = List.range' 1 2 :=
  ⟨rfl, flow_index_contiguous [introNode, speechNode, endNode] [introRec, speechRec] rfl⟩

/-- C4: for a text passing the negative guard, all four speaker
pattern rules are consulted in fixed order and the LAST matching rule
determines the resulting name and speech remainder (later rules
override earlier ones; a first-match-wins reading would disagree). -/
theorem speaker_rules_last_match_wins (t : Str)
    (hg : NON_SPEAKER_INTRO_match t = false) :
    (∀ c e, reMatch OTHER_ROLE_NAME_RE t = some (c, e) →
        (matchSpeakerRules t).speaker_name = some (capStr c 1) ∧
        (matchSpeakerRules t).speech = some (t.drop e)) ∧
    (reMatch OTHER_ROLE_NAME_RE t = none →
      ∀ c e, reMatch MINISTER_NAME_RE t = some (c, e) →
        (matchSpeakerRules t).speaker_name = some (capStr c 1) ∧
        (matchSpeakerRules t).speaker_ministry = some (capStr c 2) ∧
        (matchSpeakerRules t).speech = some (t.drop e)) ∧
    (reMatch OTHER_ROLE_NAME_RE t = none →
      reMatch MINISTER_NAME_RE t = none →
      ∀ c e, reMatch SPEAKER_PARTY_NAME_RE t = some (c, e) →
        (matchSpeakerRules t).speaker_name = some (capStr c 1) ∧
        (matchSpeakerRules t).speech = some (t.drop e)) ∧
    (reMatch OTHER_ROLE_NAME_RE t = none →
      reMatch MINISTER_NAME_RE t = none →
      reMatch SPEAKER_PARTY_NAME_RE t = none →
      ∀ c e, reMatch SPEAKER_NAME_RE t = some (c, e) →
        (matchSpeakerRules t).speaker_name = some (capStr c 1) ∧
        (matchSpeakerRules t).speech = some (t.drop e)) := by
  refine ⟨?_, ?_, ?_, ?_⟩
  · intro c e h4
    unfold matchSpeakerRules
    rcases h1 : reMatch SPEAKER_NAME_RE t with _ | ⟨c1, e1⟩ <;>
      rcases h2 : reMatch SPEAKER_PARTY_NAME_RE t with _ | ⟨c2, e2⟩ <;>
        rcases h3 : reMatch MINISTER_NAME_RE t with _ | ⟨c3, e3⟩ <;>
          simp [h4]
  · intro h4 c e h3
    unfold matchSpeakerRules
    rcases h1 : reMatch SPEAKER_NAME_RE t with _ | ⟨c1, e1⟩ <;>
      rcases h2 : reMatch SPEAKER_PARTY_NAME_RE t with _ | ⟨c2, e2⟩ <;>
        simp [h3, h4]
  · intro h4 h3 c e h2
    unfold matchSpeakerRules
    rcases h1 : reMatch SPEAKER_NAME_RE t with _ | ⟨c1, e1⟩ <;>
      simp [h2, h3, h4]
  · intro h4 h3 h2 c e h1
    unfold matchSpeakerRules
    simp [h1, h2, h3, h4]

/-- Witness for C4 on `overrideText`, where the bare-name rule and the
party rule both match with different ends, and the later (party)
rule's captures win: the name is its group 1 and the speech remainder
starts at its match end 19, not at the bare-name rule's end. -/
theorem speaker_rules_last_match_wins_witness :
    NON_SPEAKER_INTRO_match overrideText = false ∧
    (reMatch SPEAKER_NAME_RE overrideText).isSome = true ∧
    (matchSpeakerRules overrideText).speaker_name = some ("Fritz Fischer ".toList) ∧
    (matchSpeakerRules overrideText).speech = some ("Partei): Text".toList) := by
  have h := (speaker_rules_last_match_wins overrideText (by decide)).2.2.1
    (by rfl) (by rfl)
    [(2, "(SPD".toList), (1, "Fritz Fischer ".toList)] 19 (by rfl)
  exact ⟨by decide, by rfl, h.1.trans (by decide), h.2.trans (by decide)⟩

/-- C1 (amended): a paragraph node recognized as a speaker
introduction both opens a new speaker section AND emits exactly one
record for that node, carrying the new section's speaker attributes,
the remaining speech text, and `speaker_flow_index` 1. -/
theorem intro_paragraph_emits_record (st : WState) (nd : Node)
    (info : SpeakerInfo) (ws : List PWarning)
    (hne : clean_text nd.text ≠ [])
    (hpage : pageMatch (clean_text nd.text) = false)
    (hintro : setInter SPEAKER_INTRO_CLASSES (nd.classes.map lowerStr) = true)
    (hok : parse_speaker_intro (typo_fixes (clean_text nd.text)) = .ok (info, ws)) :
    processNode st nd = .ok
      { recs := st.recs ++ [{ kind := RecordKind.speech, text := info.speech,
                              section_meta := metaOf info,
                              html_classes := sortClasses (nd.classes.map lowerStr),
                              flow_index := st.p_counter,
                              speaker_flow_index := 1 }],
        section_meta_data := some (metaOf info),
        p_counter := st.p_counter + 1,
        speaker_section_counter := 2,
        warnings := st.warnings ++ ws } := by
  unfold processNode
  dsimp only
  rw [if_neg hne, if_neg (by rw [hpage]; exact Bool.false_ne_true), if_pos hintro, hok]
  rfl

/-- Witness for C1 (amended): `introNode` is recognized and produces
the record `introRec` while opening the section `maxMeta`. -/
theorem intro_paragraph_emits_record_witness :
    processNode initState introNode = .ok
      { recs := [introRec], section_meta_data := some maxMeta, p_counter := 2,
        speaker_section_counter := 2, warnings := [] } :=
  intro_paragraph_emits_record initState introNode maxInfo []
    (by decide) (by decide) (by decide) (by rfl)

/-- C1 counterexample: a document whose only content node is a
successfully recognized speaker introduction yields ONE emitted
record (for that very node), refuting "no record is emitted for a
speaker-intro node". -/
theorem intro_paragraph_no_record_cex :
    exOk (parse_speaker_intro (typo_fixes (clean_text introNode.text))) = true ∧
    parse_protocol [introNode, endNode] = .ok [introRec] :=
  ⟨rfl, rfl⟩

/-- C3 (amended): an annotation paragraph's record text is the
normalized text with ALL leading `(` characters and ALL trailing `)`
characters stripped (Python `lstrip`/`rstrip` semantics), not just
one of each. -/
theorem annotation_paragraph_step (st : WState) (nd : Node) (meta : SpeakerMeta)
    (hsec : st.section_meta_data = some meta)
    (hne : clean_text nd.text ≠ [])
    (hpage : pageMatch (clean_text nd.text) = false)
    (hni : setInter SPEAKER_INTRO_CLASSES (nd.classes.map lowerStr) = false)
    (hnsp : setInter SPEECH_CLASSES (nd.classes.map lowerStr) = false)
    (hann : setInter ANNOTATION_CLASSES (nd.classes.map lowerStr) = true) :
    processNode st nd = .ok
      { st with
        recs := st.recs ++ [{
          kind := RecordKind.annot,
          text := some (clean_text ((((typo_fixes (clean_text nd.text)).dropWhile
              (fun c => c = '(')).reverse.dropWhile (fun c => c = ')')).reverse)),
          section_meta := meta,
          html_classes := sortClasses (nd.classes.map lowerStr),
          flow_index := st.p_counter,
          speaker_flow_index := st.speaker_section_counter }],
        p_counter := st.p_counter + 1,
        speaker_section_counter := st.speaker_section_counter + 1 } := by
  obtain ⟨recs, sec, pc, sc, wsl⟩ := st
  change sec = some meta at hsec
  subst hsec
  unfold processNode
  dsimp only
  rw [if_neg hne, if_neg (by rw [hpage]; exact Bool.false_ne_true),
    if_neg (by rw [hni]; exact Bool.false_ne_true)]
  unfold finishOrdinary
  dsimp only
  rw [if_neg (by rw [hnsp]; exact Bool.false_ne_true), if_pos hann]
  rfl

/-- Witness for C3 (amended): the annotation node `((Beifall))` emits
the record `annotRec` with text `Beifall`. -/
theorem annotation_paragraph_step_witness :
    processNode stateAfterIntro annotNode = .ok
      { recs := [introRec, annotRec], section_meta_data := some maxMeta,
        p_counter := 3, speaker_section_counter := 3, warnings := [] } :=
  annotation_paragraph_step stateAfterIntro annotNode maxMeta
    rfl (by decide) (by decide) (by decide) (by decide) (by decide)

/-- C3 counterexample: for the annotation text `((Beifall))` the
emitted text is `Beifall` (all parentheses stripped), not the
`(Beifall)` that stripping exactly one leading and one trailing
parenthesis would give. -/
theorem annotation_one_paren_cex :
    parse_protocol [introNode, annotNode, endNode] = .ok [introRec, annotRec] ∧
    annotRec.kind = RecordKind.annot ∧
    annotRec.text = some ("Beifall".toList) ∧
    annotRec.text ≠ some (clean_text (stripOneParenSpec (typo_fixes (clean_text annotNode.text)))) :=
  ⟨rfl, rfl, rfl, by decide⟩

/-- C5: a speaker-intro-tagged paragraph whose text matches the
negative guard is rejected by the matcher (before any rule can
apply), no diagnostic is recorded, the paragraph is re-tagged as
annotation when its text opens with `(` and as speech otherwise, and
with a prior speaker section active exactly one ordinary record
attributed to that prior section is emitted. -/
theorem guard_rejected_intro_step (st : WState) (nd : Node) (meta : SpeakerMeta)
    (hsec : st.section_meta_data = some meta)
    (hne : clean_text nd.text ≠ [])
    (hpage : pageMatch (clean_text nd.text) = false)
    (hintro : setInter SPEAKER_INTRO_CLASSES (nd.classes.map lowerStr) = true)
    (hguard : NON_SPEAKER_INTRO_match (typo_fixes (clean_text nd.text)) = true) :
    parse_speaker_intro (typo_fixes (clean_text nd.text)) = .error .notSpeakerIntro ∧
    ∃ r : Record,
      processNode st nd = .ok { st with recs := st.recs ++ [r],
                                        p_counter := st.p_counter + 1,
                                        speaker_section_counter := st.speaker_section_counter + 1 } ∧
      r.section_meta = meta ∧
      r.flow_index = st.p_counter ∧
      r.speaker_flow_index = st.speaker_section_counter ∧
      (if (typo_fixes (clean_text nd.text)).head? = some '(' then
         "kklammer".toList ∈ r.html_classes
       else "astandardabsatz".toList ∈ r.html_classes ∧ r.kind = RecordKind.speech) := by
  have herr : parse_speaker_intro (typo_fixes (clean_text nd.text)) = .error .notSpeakerIntro := by
    unfold parse_speaker_intro
    rw [if_pos hguard]
  refine ⟨herr, ?_⟩
  obtain ⟨recs, sec, pc, sc, wsl⟩ := st
  change sec = some meta at hsec
  subst hsec
  unfold processNode
  dsimp only
  rw [if_neg hne, if_neg (by rw [hpage]; exact Bool.false_ne_true), if_pos hintro, herr]
  dsimp only
  rw [if_pos hguard]
  simp only [List.append_nil]
  unfold finishOrdinary
  dsimp only
  by_cases hh : (typo_fixes (clean_text nd.text)).head? = some '('
  · rw [if_pos hh]
    by_cases hs : setInter SPEECH_CLASSES
        (nd.classes.map lowerStr ++ ["kklammer".toList]) = true
    · rw [if_pos hs]
      refine ⟨{ kind := RecordKind.speech,
                text := some (typo_fixes (clean_text nd.text)),
                section_meta := meta,
                html_classes := sortClasses (List.map lowerStr nd.classes ++ ["kklammer".toList]),
                flow_index := pc, speaker_flow_index := sc }, rfl, rfl, rfl, rfl, ?_⟩
      rw [if_pos hh]
      exact mem_sortClasses_of_mem _ _ (List.mem_append_right _ (by simp))
    · rw [if_neg hs,
        if_pos (setInter_append_member ANNOTATION_CLASSES _ _ (by decide))]
      refine ⟨{ kind := RecordKind.annot,
                text := some (parse_annotation_paragraph (typo_fixes (clean_text nd.text))),
                section_meta := meta,
                html_classes := sortClasses (List.map lowerStr nd.classes ++ ["kklammer".toList]),
                flow_index := pc, speaker_flow_index := sc }, rfl, rfl, rfl, rfl, ?_⟩
      rw [if_pos hh]
      exact mem_sortClasses_of_mem _ _ (List.mem_append_right _ (by simp))
  · rw [if_neg hh]
    rw [if_pos (setInter_append_member SPEECH_CLASSES _ _ (by decide))]
    refine ⟨{ kind := RecordKind.speech,
              text := some (typo_fixes (clean_text nd.text)),
              section_meta := meta,
              html_classes := sortClasses (List.map lowerStr nd.classes ++ ["astandardabsatz".toList]),
              flow_index := pc, speaker_flow_index := sc }, rfl, rfl, rfl, rfl, ?_⟩
    rw [if_neg hh]
    exact ⟨mem_sortClasses_of_mem _ _ (List.mem_append_right _ (by simp)), rfl⟩

/-- Witness for C5: the paragraph `"Ich bitte um Ruhe."` tagged as a
speaker intro, processed while `maxMeta`'s section is active. -/
theorem guard_rejected_intro_step_witness :
    parse_speaker_intro (typo_fixes (clean_text guardNode.text)) = .error .notSpeakerIntro ∧
    ∃ r : Record,
      processNode stateAfterIntro guardNode = .ok
        { stateAfterIntro with recs := stateAfterIntro.recs ++ [r],
                               p_counter := stateAfterIntro.p_counter + 1,
                               speaker_section_counter := stateAfterIntro.speaker_section_counter + 1 } ∧
      r.section_meta = maxMeta ∧
      r.flow_index = stateAfterIntro.p_counter ∧
      r.speaker_flow_index = stateAfterIntro.speaker_section_counter ∧
      (if (typo_fixes (clean_text guardNode.text)).head? = some '(' then
         "kklammer".toList ∈ r.html_classes
       else "astandardabsatz".toList ∈ r.html_classes ∧ r.kind = RecordKind.speech) :=
  guard_rejected_intro_step stateAfterIntro guardNode maxMeta
    rfl (by decide) (by decide) (by decide) (by decide)
